import Mathlib

/-!
Shallow embedding of the aishell repository (Python) in Lean 4, together with
theorems settling the frozen claims about it.

Conventions used throughout:
* Python `None` and JSON `null` are modelled by `JVal.null`; Python dictionaries
  of JSON-like values are ordered association lists `List (String × JVal)` with
  first-match lookup and in-place overwrite, matching CPython dict semantics.
* External library calls (the `re` module, `aiohttp` HTTP transport, the
  vendor SDK calls inside provider `query` bodies, the filesystem) are modelled
  as explicit oracle parameters; the repository's own control flow around them
  is translated faithfully from the source.
* `async` functions are modelled as pure functions from their inputs (including
  the oracle outcomes) to their results; mutable object state (`_request_id`,
  `current_dir`, `history`, `_loaded_vars`) is threaded explicitly.
-/

namespace Aishell

/-! Python `str` methods, modelled on the string's character list so that
they compute by kernel reduction (`String.startsWith` and friends are
position-based and do not).  Semantics follow Python for the ASCII inputs
the repository handles. -/

/-- Python `s.startswith(pre)`. -/
def pyStartsWith (s pre : String) : Bool := pre.data.isPrefixOf s.data

/-- Python `s.endswith(suf)`. -/
def pyEndsWith (s suf : String) : Bool := suf.data.isSuffixOf s.data

/-- Python `s.lower()`. -/
def pyToLower (s : String) : String := String.mk (s.data.map Char.toLower)

/-- Python `s.upper()`. -/
def pyToUpper (s : String) : String := String.mk (s.data.map Char.toUpper)

/-- Python `s.strip()`: drop leading and trailing whitespace. -/
def pyStrip (s : String) : String :=
  String.mk (((s.data.dropWhile Char.isWhitespace).reverse.dropWhile
    Char.isWhitespace).reverse)

/-- Splitter for a character class: pieces between separator characters
(empty pieces included, as Python `re`-style splitting / `str.split(sep)`
produce). -/
def splitByAux (isSep : Char → Bool) : List Char → List Char → List String
  | [], acc => [String.mk acc.reverse]
  | c :: cs, acc =>
      if isSep c then String.mk acc.reverse :: splitByAux isSep cs []
      else splitByAux isSep cs (c :: acc)

/-- Split on whitespace characters, keeping empty pieces. -/
def pySplitWs (s : String) : List String :=
  splitByAux Char.isWhitespace s.data []

/-- Python `s.split(sep)` for a one-character separator. -/
def pySplitOnChar (sep : Char) (s : String) : List String :=
  splitByAux (fun c => c = sep) s.data []

/-- Python `s[1:-1]`. -/
def pyDropFirstLast (s : String) : String :=
  String.mk (s.data.drop 1).dropLast

/-- JSON-like values as produced by `json.loads` / passed around as Python
`Any`; `JVal.null` doubles as Python `None`. -/
inductive JVal where
  | null : JVal
  | str (s : String) : JVal
  | int (n : Int) : JVal
  | bool (b : Bool) : JVal
  | arr (xs : List JVal) : JVal
  | dict (fields : List (String × JVal)) : JVal

/-- Python `v is not None` test. -/
def JVal.isNull : JVal → Bool
  | .null => true
  | _ => false

/-- Python `d.get(k)` on an ordered dict, distinguishing an absent key
(`none`) from a stored value (which may itself be `JVal.null`). -/
def dictGet (d : List (String × JVal)) (k : String) : Option JVal :=
  (d.find? (fun p => p.1 = k)).map (·.2)

/-! ## src/aishell/mcp/client.py — MCPMessage / MCPResponse / MCPClient -/

/- Standard MCP method strings (the `MCPMethod` enum values). -/
namespace MCPMethod
def TOOLS_LIST : String := "tools/list"
def TOOLS_CALL : String := "tools/call"
def RESOURCES_LIST : String := "resources/list"
def RESOURCES_READ : String := "resources/read"
def RESOURCES_WRITE : String := "resources/write"
def PROMPTS_LIST : String := "prompts/list"
def PROMPTS_GET : String := "prompts/get"
def INITIALIZE : String := "initialize"
def PING : String := "ping"
def CUSTOM : String := "custom"
end MCPMethod

/-- The `MCPMessage` dataclass.  All fields hold JSON values because
`from_dict` stores whatever the input dictionary holds; the dataclass
defaults are `jsonrpc="2.0"`, `method=""`, `params=None`, `id=None`. -/
structure MCPMessage where
  jsonrpc : JVal := .str "2.0"
  method : JVal := .str ""
  params : JVal := .null
  id : JVal := .null

/-- `MCPMessage.to_dict`: always emits `jsonrpc` and `method`; emits
`params` / `id` only when they are not `None`. -/
def MCPMessage.to_dict (m : MCPMessage) : List (String × JVal) :=
  [("jsonrpc", m.jsonrpc), ("method", m.method)]
    ++ (if m.params.isNull then [] else [("params", m.params)])
    ++ (if m.id.isNull then [] else [("id", m.id)])

/-- `MCPMessage.from_dict`: `data.get("jsonrpc", "2.0")`,
`data.get("method", "")`, `data.get("params")`, `data.get("id")`. -/
def MCPMessage.from_dict (d : List (String × JVal)) : MCPMessage :=
  { jsonrpc := (dictGet d "jsonrpc").getD (.str "2.0")
    method := (dictGet d "method").getD (.str "")
    params := (dictGet d "params").getD .null
    id := (dictGet d "id").getD .null }

/-- The `MCPResponse` dataclass; `error` is `Optional[Dict]`, modelled as a
JSON value with `null` for `None`. -/
structure MCPResponse where
  jsonrpc : JVal := .str "2.0"
  result : JVal := .null
  error : JVal := .null
  id : JVal := .null

/-- `MCPResponse.is_error`: `self.error is not None`. -/
def MCPResponse.is_error (r : MCPResponse) : Bool := ! r.error.isNull

/-- `MCPResponse.from_dict`. -/
def MCPResponse.from_dict (d : List (String × JVal)) : MCPResponse :=
  { jsonrpc := (dictGet d "jsonrpc").getD (.str "2.0")
    result := (dictGet d "result").getD .null
    error := (dictGet d "error").getD .null
    id := (dictGet d "id").getD .null }

namespace MCPClient

/-- `MCPClient._get_next_id`: increments `self._request_id` (initially 0)
and returns the new value.  The state is the counter. -/
def _get_next_id (s : Nat) : Nat × Nat := (s + 1, s + 1)

/-- Result of `n` consecutive `_get_next_id` calls starting from counter
state `s`: the list of returned ids and the final counter. -/
def runCalls : Nat → Nat → List Nat × Nat
  | 0, s => ([], s)
  | n + 1, s =>
      let (v, s') := _get_next_id s
      let (vs, s'') := runCalls n s'
      (v :: vs, s'')

/-- Outcome of the `aiohttp` POST inside `send_message`: an HTTP response
(with status, response text and parsed JSON body), a raised
`aiohttp.ClientError`, or any other exception. -/
inductive HttpOutcome where
  | response (status : Nat) (text : String) (json : List (String × JVal))
  | clientError (e : String)
  | exc (e : String)

/-- `MCPClient.send_message`, given the counter state and the transport
outcome.  Returns the message as actually sent (after the in-place
`message.id` assignment), the `MCPResponse`, and the new counter state. -/
def send_message (st : Nat) (message : MCPMessage) (http : HttpOutcome) :
    MCPMessage × MCPResponse × Nat :=
  -- "Add ID if not present"
  let (message, st) :=
    if message.id.isNull then
      let (nid, st') := _get_next_id st
      ({ message with id := .int nid }, st')
    else (message, st)
  match http with
  | .response status text json =>
      if status ≠ 200 then
        (message,
         { error := .dict [("code", .int status),
                           ("message", .str ("HTTP error: " ++ toString status)),
                           ("data", .str text)]
           id := message.id },
         st)
      else
        (message, MCPResponse.from_dict json, st)
  | .clientError e =>
      (message,
       { error := .dict [("code", .int (-32603)),
                         ("message", .str "Internal error"),
                         ("data", .str e)]
         id := message.id },
       st)
  | .exc e =>
      (message,
       { error := .dict [("code", .int (-32603)),
                         ("message", .str "Internal error"),
                         ("data", .str e)]
         id := message.id },
       st)

end MCPClient

/-! ## src/aishell/llm/base.py and the providers — LLMResponse -/

/-- The `LLMResponse` dataclass. -/
structure LLMResponse where
  content : String
  model : String
  provider : String
  usage : Option (List (String × Int)) := none
  metadata : Option (List (String × JVal)) := none
  error : Option String := none

/-- `LLMResponse.is_error`: `self.error is not None`. -/
def LLMResponse.is_error (r : LLMResponse) : Bool := r.error.isSome

/-- Outcome of the body of a provider's `try:` block: either the values the
vendor SDK produced (content, usage, extra metadata) or `str(e)` of the
raised exception. -/
inductive ApiOutcome where
  | ok (content : String) (usage : Option (List (String × Int)))
       (metadata : Option (List (String × JVal)))
  | exc (e : String)

/-- `ClaudeLLMProvider.query`: validate-config guard, then try/except around
the Anthropic call. -/
def ClaudeLLMProvider.query (validConfig : Bool) (model : Option String)
    (defaultModel : String) (api : ApiOutcome) : LLMResponse :=
  if ! validConfig then
    { content := "", model := model.getD defaultModel, provider := "claude"
      error := some "API key not configured" }
  else
    match api with
    | .ok content usage metadata =>
        { content := content, model := model.getD defaultModel
          provider := "claude", usage := usage, metadata := metadata }
    | .exc e =>
        { content := "", model := model.getD defaultModel, provider := "claude"
          error := some ("Claude API error: " ++ e) }

/-- `OpenAILLMProvider.query` (same guard/try/except shape). -/
def OpenAILLMProvider.query (validConfig : Bool) (model : Option String)
    (defaultModel : String) (api : ApiOutcome) : LLMResponse :=
  if ! validConfig then
    { content := "", model := model.getD defaultModel, provider := "openai"
      error := some "API key not configured" }
  else
    match api with
    | .ok content usage metadata =>
        { content := content, model := model.getD defaultModel
          provider := "openai", usage := usage, metadata := metadata }
    | .exc e =>
        { content := "", model := model.getD defaultModel, provider := "openai"
          error := some ("OpenAI API error: " ++ e) }

/-- `GeminiLLMProvider.query`. -/
def GeminiLLMProvider.query (validConfig : Bool) (model : Option String)
    (defaultModel : String) (api : ApiOutcome) : LLMResponse :=
  if ! validConfig then
    { content := "", model := model.getD defaultModel, provider := "gemini"
      error := some "API key not configured" }
  else
    match api with
    | .ok content usage metadata =>
        { content := content, model := model.getD defaultModel
          provider := "gemini", usage := usage, metadata := metadata }
    | .exc e =>
        { content := "", model := model.getD defaultModel, provider := "gemini"
          error := some ("Gemini API error: " ++ e) }

/-- `OpenRouterLLMProvider.query`. -/
def OpenRouterLLMProvider.query (validConfig : Bool) (model : Option String)
    (defaultModel : String) (api : ApiOutcome) : LLMResponse :=
  if ! validConfig then
    { content := "", model := model.getD defaultModel, provider := "openrouter"
      error := some "API key not configured" }
  else
    match api with
    | .ok content usage metadata =>
        { content := content, model := model.getD defaultModel
          provider := "openrouter", usage := usage, metadata := metadata }
    | .exc e =>
        { content := "", model := model.getD defaultModel
          provider := "openrouter"
          error := some ("OpenRouter API error: " ++ e) }

/-- Outcome of the `aiohttp` POST in `OllamaLLMProvider.query`: HTTP status
together with the response text (read on non-200) and the parsed body values
(content, eval count, duration) used on 200; or a raised `ClientError`; or
any other exception. -/
inductive OllamaOutcome where
  | http (status : Nat) (errorText : String) (content : String)
         (usage : List (String × Int)) (metadata : List (String × JVal))
  | clientError (e : String)
  | exc (e : String)

/-- `OllamaLLMProvider.query`: model-exists check (itself inside the `try:`),
non-200 branch, success branch, `ClientError` branch, generic exception
branch. -/
def OllamaLLMProvider.query (model : Option String) (defaultModel : String)
    (modelExists : Bool) (post : OllamaOutcome) : LLMResponse :=
  let model := model.getD defaultModel
  if ! modelExists then
    { content := "", model := model, provider := "ollama"
      error := some ("Model '" ++ model ++ "' not found. Pull it with: ollama pull " ++ model) }
  else
    match post with
    | .http status errorText content usage metadata =>
        if status ≠ 200 then
          { content := "", model := model, provider := "ollama"
            error := some ("Ollama API error: " ++ errorText) }
        else
          { content := content, model := model, provider := "ollama"
            usage := some usage, metadata := some metadata }
    | .clientError e =>
        { content := "", model := model, provider := "ollama"
          error := some ("Connection error: " ++ e ++ ". Is Ollama running?") }
    | .exc e =>
        { content := "", model := model, provider := "ollama"
          error := some ("Ollama error: " ++ e) }

/-! ## src/aishell/mcp/translator.py — NLToMCPTranslator -/

namespace NLToMCPTranslator

/-- The `PATTERNS` class attribute: operation name paired with its regex
source strings, in the source's (insertion) order. -/
def PATTERNS : List (String × List String) :=
  [ ("list_tools",
      [ "(list|show|get|what).*(tools?|functions?|capabilities)",
        "what can (you|the server) do",
        "available (tools?|functions?)" ]),
    ("call_tool",
      [ "(call|run|execute|use)\\s+(?:the\\s+)?(\\w+)\\s+(?:tool|function)",
        "(\\w+)\\s+tool\\s+with",
        "use\\s+(\\w+)\\s+to" ]),
    ("list_resources",
      [ "(list|show|get|what).*(resources?|files?|data)",
        "available (resources?|files?)" ]),
    ("read_resource",
      [ "(read|get|show|fetch)\\s+(?:the\\s+)?(?:resource|file)\\s+(.+)",
        "(read|get|show)\\s+(.+)\\s+(?:resource|file)" ]),
    ("list_prompts",
      [ "(list|show|get|what).*(prompts?|templates?)",
        "available (prompts?|templates?)" ]),
    ("get_prompt",
      [ "(get|show|use)\\s+(?:the\\s+)?(\\w+)\\s+prompt",
        "prompt\\s+(?:named\\s+)?(\\w+)" ]),
    ("ping",
      [ "ping", "test connection", "check server" ]) ]

/-- The `PATTERNS` table flattened to (operation, pattern) pairs, preserving
the two-level iteration order of `parse_simple_query`. -/
def patternList : List (String × String) :=
  PATTERNS.flatMap (fun p => p.2.map (fun pat => (p.1, pat)))

/-- An `re.search` oracle: given a pattern source and the text, `none` when
there is no match, otherwise the `groups()` tuple of the match (with `none`
for groups that did not participate). -/
def ReSearch := String → String → Option (List (Option String))

/-- An `extract_json_args` oracle (its body is regex + `json.loads` library
work): the extracted argument dict, or `none`. -/
def ExtractArgs := String → Option (List (String × JVal))

/-- Python `groups[-1] if groups else None`. -/
def lastGroup (groups : List (Option String)) : Option String :=
  (groups.getLast?).bind id

/-- The per-operation message construction inside `parse_simple_query`'s
match arm; `none` means the arm falls through (e.g. a falsy tool name) and
the pattern loop continues. -/
def buildMessage (extractArgs : ExtractArgs) (query : String) (op : String)
    (groups : List (Option String)) : Option MCPMessage :=
  if op = "list_tools" then
    some { method := .str MCPMethod.TOOLS_LIST }
  else if op = "call_tool" then
    match lastGroup groups with
    | some tool_name =>
        if tool_name ≠ "" then
          some { method := .str MCPMethod.TOOLS_CALL
                 params := .dict [("name", .str tool_name),
                                  ("arguments", .dict ((extractArgs query).getD []))] }
        else none
    | none => none
  else if op = "list_resources" then
    some { method := .str MCPMethod.RESOURCES_LIST }
  else if op = "read_resource" then
    match lastGroup groups with
    | some resource_uri =>
        if resource_uri ≠ "" then
          some { method := .str MCPMethod.RESOURCES_READ
                 params := .dict [("uri", .str (pyStrip resource_uri))] }
        else none
    | none => none
  else if op = "list_prompts" then
    some { method := .str MCPMethod.PROMPTS_LIST }
  else if op = "get_prompt" then
    match lastGroup groups with
    | some prompt_name =>
        if prompt_name ≠ "" then
          some { method := .str MCPMethod.PROMPTS_GET
                 params := .dict ([("name", .str prompt_name)] ++
                   (match extractArgs query with
                    | some args => if ! args.isEmpty then [("arguments", .dict args)] else []
                    | none => [])) }
        else none
    | none => none
  else if op = "ping" then
    some { method := .str MCPMethod.PING }
  else none

/-- `NLToMCPTranslator.parse_simple_query`: lowercases and strips the query,
then scans the pattern table in order, returning the first arm that yields a
message. -/
def parse_simple_query (search : ReSearch) (extractArgs : ExtractArgs)
    (query : String) : Option MCPMessage :=
  let query_lower := pyStrip (pyToLower query)
  patternList.findSome? (fun p =>
    (search p.2 query_lower).bind (buildMessage extractArgs query p.1))

/-- `NLToMCPTranslator.translate`.  `llm` is the optional `llm_provider`,
abstracted to the outcome of `translate_with_llm` (which catches every
exception and returns `None` on any failure, hence an `Option`-valued
oracle). -/
def translate (search : ReSearch) (extractArgs : ExtractArgs)
    (llm : Option (String → Option MCPMessage)) (query : String) : MCPMessage :=
  match parse_simple_query search extractArgs query with
  | some message => message
  | none =>
      match llm with
      | some f =>
          match f query with
          | some message => message
          | none => { method := .str MCPMethod.CUSTOM
                      params := .dict [("query", .str query)] }
      | none => { method := .str MCPMethod.CUSTOM
                  params := .dict [("query", .str query)] }

end NLToMCPTranslator

/-! ## src/aishell/shell/intelligent_shell.py -/

/-- `shlex.split`, modelled for quote-free input (every command the claims
touch is quote-free): split on whitespace and drop empty pieces. -/
def shlexSplit (s : String) : List String :=
  (pySplitWs s).filter (fun p => p ≠ "")

/-- The built-in alias table of `IntelligentShell._load_aliases` (before the
optional user alias file is merged in). -/
def defaultAliases : List (String × String) :=
  [("ll", "ls -la"), ("la", "ls -a"), ("l", "ls -l"),
   ("..", "cd .."), ("...", "cd ../.."),
   ("g", "git"), ("d", "docker"), ("p", "python"), ("cls", "clear")]

/-- `IntelligentShell.expand_alias`: split, substitute the head if it is an
alias, and rejoin with single spaces; otherwise return the command
unchanged. -/
def expand_alias (aliases : List (String × String)) (command : String) : String :=
  let parts := shlexSplit command
  match parts with
  | [] => command
  | p0 :: rest =>
      match (aliases.find? (fun a => a.1 = p0)).map (·.2) with
      | some repl => String.intercalate " " (repl :: rest)
      | none => command

/-- Where `IntelligentShell.execute_command` sends a command: one of the
built-in handlers, the implicit LLM fallback (with the argument string the
handler receives), or the external `subprocess` branch. -/
inductive Route where
  | cd (cmd : String)
  | pwd
  | exportCmd (cmd : String)
  | aliasCmd
  | llm (cmd : String)
  | mcp (cmd : String)
  | collate (cmd : String)
  | generate (cmd : String)
  | env (cmd : String)
  | subprocess (cmd : String)
deriving DecidableEq

/-- The reserved keyword list of the natural-language screen in
`execute_command`. -/
def NL_KEYWORDS : List String :=
  ["cd", "pwd", "export", "alias", "history", "clear", "cls", "help",
   "exit", "quit", "env"]

/-- The branch sequence of `execute_command` applied to the already
alias-expanded command. -/
def dispatchCore (command : String) : Route :=
  if pyStartsWith command "cd " then .cd command
  else if command = "pwd" then .pwd
  else if pyStartsWith command "export " then .exportCmd command
  else if command = "alias" then .aliasCmd
  else if pyStartsWith command "llm" && (command = "llm" || pyStartsWith command "llm ") then
    .llm command
  else if pyStartsWith command "mcp" && (command = "mcp" || pyStartsWith command "mcp ") then
    .mcp command
  else if pyStartsWith command "collate" && (command = "collate" || pyStartsWith command "collate ") then
    .collate command
  else if pyStartsWith command "generate" && (command = "generate" || pyStartsWith command "generate ") then
    .generate command
  else if pyStartsWith command "env" && (command = "env" || pyStartsWith command "env ") then
    .env command
  else if ! NL_KEYWORDS.any (fun k => pyStartsWith command k) then
    .llm ("llm \"" ++ command ++ "\"")
  else .subprocess command

/-- `execute_command`'s dispatch: alias expansion followed by the branch
sequence. -/
def dispatch (aliases : List (String × String)) (command : String) : Route :=
  dispatchCore (expand_alias aliases command)

/-- A `pathlib.Path` value, simplified to an absolute flag plus name
segments. -/
structure PyPath where
  isAbs : Bool
  segs : List String
deriving DecidableEq

/-- Parse a path string the way `Path(...)` does for plain strings. -/
def parsePath (s : String) : PyPath :=
  { isAbs := pyStartsWith s "/"
    segs := (pySplitOnChar '/' s).filter (fun p => p ≠ "") }

/-- `a / b` for paths (`b` absolute replaces `a`). -/
def PyPath.join (a b : PyPath) : PyPath :=
  if b.isAbs then b else { isAbs := a.isAbs, segs := a.segs ++ b.segs }

/-- Filesystem oracles used by `_handle_cd`: the home directory,
`Path.resolve`, and the `exists()` / `is_dir()` tests. -/
structure Fs where
  home : PyPath
  resolve : PyPath → PyPath
  existsP : PyPath → Bool
  isDirP : PyPath → Bool

/-- `str(path)` rendering. -/
def PyPath.toStr (p : PyPath) : String :=
  (if p.isAbs then "/" else "") ++ String.intercalate "/" p.segs

/-- `Path.expanduser`: a leading `~` segment is replaced by the home
directory. -/
def PyPath.expanduser (home : PyPath) (p : PyPath) : PyPath :=
  match p.segs with
  | "~" :: rest => { isAbs := home.isAbs, segs := home.segs ++ rest }
  | _ => p

/-- The target directory `_handle_cd` computes before testing it: home for a
bare argument list, otherwise the (home-expanded) argument, joined onto the
tracked `current_dir` when relative, then resolved. -/
def cdTarget (fs : Fs) (current_dir : PyPath) (command : String) : PyPath :=
  let parts := shlexSplit command
  let new_dir :=
    if parts.length = 1 then fs.home
    else PyPath.expanduser fs.home (parsePath (parts.getD 1 ""))
  let new_dir := if ! new_dir.isAbs then current_dir.join new_dir else new_dir
  fs.resolve new_dir

/-- `IntelligentShell._handle_cd`, returning the `(exit_code, stdout,
stderr)` triple, the new tracked `current_dir`, and the new OS working
directory (`os.chdir` target). -/
def _handle_cd (fs : Fs) (current_dir osCwd : PyPath) (command : String) :
    (Nat × String × String) × PyPath × PyPath :=
  let new_dir := cdTarget fs current_dir command
  if fs.existsP new_dir && fs.isDirP new_dir then
    ((0, new_dir.toStr, ""), new_dir, new_dir)
  else
    ((1, "", "cd: " ++ new_dir.toStr ++ ": No such directory"), current_dir, osCwd)

/-- One `execute_command` step restricted to its effect on the tracked
`current_dir` and OS cwd: only the `cd` builtin route touches them. -/
def executeCommandDir (aliases : List (String × String)) (fs : Fs)
    (current_dir osCwd : PyPath) (command : String) :
    Route × PyPath × PyPath :=
  match dispatch aliases command with
  | .cd c =>
      let (_, cur', os') := _handle_cd fs current_dir osCwd c
      (.cd c, cur', os')
  | r => (r, current_dir, osCwd)

namespace CommandHistory

/-- State of a `CommandHistory`: the in-memory `history` list and the
persisted file content (as the list of entries written). -/
structure State where
  history : List String
  file : List String
deriving DecidableEq

/-- `CommandHistory.save_history` writes `'\n'.join(self.history[-1000:])`;
`history[-1000:]` is `drop (length - 1000)`. -/
def save_history (history : List String) : List String :=
  history.drop (history.length - 1000)

/-- `CommandHistory.add`: skip empty / `exit` / `quit`, otherwise append and
rewrite the file. -/
def add (st : State) (command : String) : State :=
  if command ≠ "" ∧ command ∉ ["exit", "quit"] then
    let history := st.history ++ [command]
    { history := history, file := save_history history }
  else st

end CommandHistory

/-! ## src/aishell/utils/transcript.py — LLMTranscriptManager -/

namespace LLMTranscriptManager

/-- The entry header line `**{timestamp} | {PROVIDER}( (model))**`. -/
def headerLine (timestamp provider : String) (model : Option String) : String :=
  "**" ++ timestamp ++ " | " ++ pyToUpper provider ++
    (match model with | some m => " (" ++ m ++ ")" | none => "") ++ "**"

/-- `LLMTranscriptManager._log_error`: the lines appended to the error
file. -/
def _log_error (timestamp query error provider : String)
    (model : Option String) : List String :=
  [ headerLine timestamp provider model,
    "",
    "**Query:** " ++ query,
    "",
    "**Error:** " ++ error,
    "",
    "---",
    "" ]

/-- `", ".join(f"{k}: {v}" for ...)` over a usage dict. -/
def usageStr (usage : List (String × Int)) : String :=
  String.intercalate ", " (usage.map (fun p => p.1 ++ ": " ++ toString p.2))

/-- `LLMTranscriptManager.log_interaction`: returns the lines appended to
the transcript file and (on the error path) the lines appended to the error
file.  Python's `if error:` / `if usage:` truthiness (non-`None` and
non-empty) is modelled explicitly. -/
def log_interaction (timestamp query response provider : String)
    (model : Option String) (usage : Option (List (String × Int)))
    (error : Option String) : List String × Option (List String) :=
  match error with
  | some e =>
      if e ≠ "" then
        ([ headerLine timestamp provider model,
           "",
           "**Query:** " ++ query,
           "",
           "**Response:** Failed (see log with timestamp " ++ timestamp ++ ")",
           "",
           "---",
           "" ],
         some (_log_error timestamp query e provider model))
      else
        (successLines timestamp query response provider model usage, none)
  | none =>
      (successLines timestamp query response provider model usage, none)
where
  successLines (timestamp query response provider : String)
      (model : Option String) (usage : Option (List (String × Int))) :
      List String :=
    [ headerLine timestamp provider model,
      "",
      "**Query:** " ++ query,
      "",
      "**Response:**",
      response,
      "" ] ++
    (match usage with
     | some u => if ! u.isEmpty then ["**Usage:** " ++ usageStr u, ""] else []
     | none => []) ++
    ["---", ""]

/-- The transcript call made by the error branch of the CLI `query`
subcommand (src/aishell/cli.py lines 239-247): the raw error text is passed
as the `response` argument, with no `error` argument. -/
def cliQueryErrorLog (timestamp query_str errText provider : String)
    (model : Option String) : List String × Option (List String) :=
  log_interaction timestamp query_str ("ERROR: " ++ errText) provider
    (some (model.getD "unknown")) none none

end LLMTranscriptManager

/-! ## src/aishell/utils/env_manager.py — EnvManager -/

namespace EnvManager

/-- Strip a matching pair of surrounding double or single quotes, as
`load_env` does after `strip()`. -/
def stripQuotes (value : String) : String :=
  if pyStartsWith value "\"" && pyEndsWith value "\"" then
    pyDropFirstLast value
  else if pyStartsWith value "'" && pyEndsWith value "'" then
    pyDropFirstLast value
  else value

/-- Parse one line of the `.env` file: `none` for skipped lines (blank,
comment, or missing `=`), otherwise the key/value pair. -/
def parseLine (line : String) : Option (String × String) :=
  let line := pyStrip line
  if line = "" || pyStartsWith line "#" then none
  else if line.data.contains '=' then
    match pySplitOnChar '=' line with
    | [] => none
    | key :: rest =>
        some (pyStrip key, stripQuotes (pyStrip (String.intercalate "=" rest)))
  else none

/-- Dict assignment `d[k] = v` on an ordered dict: overwrite in place, or
append a new entry. -/
def dictInsert (d : List (String × String)) (k v : String) :
    List (String × String) :=
  if d.any (fun p => p.1 = k) then
    d.map (fun p => if p.1 = k then (k, v) else p)
  else d ++ [(k, v)]

/-- `EnvManager.load_env` given the file state (`none` when the `.env` file
does not exist, otherwise its lines) and the current `_loaded_vars`.
Returns the success flag and the new `_loaded_vars`.  Note that the loop
only ever inserts into `_loaded_vars`; it never clears it. -/
def load_env (file : Option (List String)) (loaded_vars : List (String × String)) :
    Bool × List (String × String) :=
  match file with
  | none => (false, loaded_vars)
  | some lines =>
      (true,
       lines.foldl (fun vars line =>
         match parseLine line with
         | some (k, v) => dictInsert vars k v
         | none => vars) loaded_vars)

/-- What verbose `reload_env` reports after a successful reload. -/
structure Report where
  added : List String
  removed : List String
  modified : List String
deriving DecidableEq

/-- `reload_env` shows the "no changes" notice exactly when all three
difference lists are empty. -/
def Report.noChanges (r : Report) : Bool :=
  r.added.isEmpty && r.removed.isEmpty && r.modified.isEmpty

/-- `EnvManager.reload_env`: snapshot the old `_loaded_vars`, reload, and
compute the reported differences (the console sorts the names for display;
the report here carries the computed key sets). -/
def reload_env (file : Option (List String))
    (loaded_vars : List (String × String)) :
    Bool × List (String × String) × Option Report :=
  let old_vars := loaded_vars
  let (success, new_loaded) := load_env file loaded_vars
  if success then
    let new_keys := new_loaded.map (·.1)
    let old_keys := old_vars.map (·.1)
    let added := new_keys.filter (fun k => ! old_keys.contains k)
    let removed := old_keys.filter (fun k => ! new_keys.contains k)
    let modified := new_keys.filter (fun k =>
      old_keys.contains k &&
        ((new_loaded.find? (fun p => p.1 = k)).map (·.2) !=
          (old_vars.find? (fun p => p.1 = k)).map (·.2)))
    (true, new_loaded, some { added := added, removed := removed, modified := modified })
  else
    (false, new_loaded, none)

end EnvManager

/-! ## Theorems -/

/-- C1: for every constructed `LLMResponse`, `is_error` holds iff the
`error` field is present; and on every provider's `query` path, a response
constructed with `error` set has empty `content`. -/
theorem llmResponse_error_invariant :
    (∀ r : LLMResponse, r.is_error = true ↔ r.error ≠ none)
    ∧ (∀ vc m dm api, (ClaudeLLMProvider.query vc m dm api).error.isSome = true →
        (ClaudeLLMProvider.query vc m dm api).content = "")
    ∧ (∀ vc m dm api, (OpenAILLMProvider.query vc m dm api).error.isSome = true →
        (OpenAILLMProvider.query vc m dm api).content = "")
    ∧ (∀ vc m dm api, (GeminiLLMProvider.query vc m dm api).error.isSome = true →
        (GeminiLLMProvider.query vc m dm api).content = "")
    ∧ (∀ vc m dm api, (OpenRouterLLMProvider.query vc m dm api).error.isSome = true →
        (OpenRouterLLMProvider.query vc m dm api).content = "")
    ∧ (∀ m dm me post, (OllamaLLMProvider.query m dm me post).error.isSome = true →
        (OllamaLLMProvider.query m dm me post).content = "") := by
  refine ⟨?_, ?_, ?_, ?_, ?_, ?_⟩
  · intro r
    simp [LLMResponse.is_error, Option.isSome_iff_ne_none]
  · intro vc m dm api h
    cases vc <;> cases api <;> simp_all [ClaudeLLMProvider.query]
  · intro vc m dm api h
    cases vc <;> cases api <;> simp_all [OpenAILLMProvider.query]
  · intro vc m dm api h
    cases vc <;> cases api <;> simp_all [GeminiLLMProvider.query]
  · intro vc m dm api h
    cases vc <;> cases api <;> simp_all [OpenRouterLLMProvider.query]
  · intro m dm me post h
    cases me <;> cases post <;> simp_all [OllamaLLMProvider.query] <;>
      split_ifs at * <;> simp_all

/-- Witness for C1 at a concrete failing Claude call. -/
theorem llmResponse_error_invariant_witness :
    (ClaudeLLMProvider.query true none "claude-3-5-sonnet-20241022"
      (.exc "boom")).content = "" :=
  llmResponse_error_invariant.2.1 true none "claude-3-5-sonnet-20241022"
    (.exc "boom") rfl

/-- Helper: `n` consecutive `_get_next_id` calls from counter state `s`
return `s+1, …, s+n` and leave the counter at `s+n`. -/
theorem runCalls_eq (n s : Nat) :
    MCPClient.runCalls n s = ((List.range n).map (fun i => s + i + 1), s + n) := by
  induction n generalizing s with
  | zero => simp [MCPClient.runCalls]
  | succ n ih =>
      rw [MCPClient.runCalls]
      simp only [MCPClient._get_next_id, ih, List.range_succ_eq_map, List.map_cons,
        List.map_map, Prod.mk.injEq]
      refine ⟨?_, by omega⟩
      congr 1
      apply List.map_congr_left
      intro a _
      simp [Function.comp]
      omega

/-- C3: a fresh client's consecutive request ids are exactly 1, 2, 3, …,
and `send_message` assigns the next generated id to a message whose id is
absent. -/
theorem request_id_generator :
    (∀ n, (MCPClient.runCalls n 0).1 = (List.range n).map (fun i => i + 1))
    ∧ (∀ st msg http, msg.id.isNull = true →
        ((MCPClient.send_message st msg http).1).id = .int (st + 1) ∧
        (MCPClient.send_message st msg http).2.2 = st + 1) := by
  constructor
  · intro n
    simp [runCalls_eq]
  · intro st msg http h
    cases http <;>
      simp [MCPClient.send_message, MCPClient._get_next_id, h] <;>
      split <;> simp

/-- Witness for C3: three calls from a fresh client give `[1, 2, 3]`, and a
message without an id is sent with id 1. -/
theorem request_id_generator_witness :
    (MCPClient.runCalls 3 0).1 = [1, 2, 3] ∧
    ((MCPClient.send_message 0 { method := .str "ping" }
        (.clientError "refused")).1).id = .int 1 := by
  constructor
  · rw [request_id_generator.1 3]
    rfl
  · exact (request_id_generator.2 0 { method := .str "ping" }
      (.clientError "refused") rfl).1

/-- C10: every locally generated failure response of `send_message`
(non-200 status or caught exception) carries the id of the outgoing request,
i.e. the id assigned in place when it was absent. -/
theorem failure_response_id_correlated :
    ∀ st msg http,
      ((MCPClient.send_message st msg http).1).id =
          (if msg.id.isNull then JVal.int (st + 1) else msg.id)
      ∧ (∀ status text json, http = .response status text json → status ≠ 200 →
          ((MCPClient.send_message st msg http).2.1).id =
            ((MCPClient.send_message st msg http).1).id)
      ∧ (∀ e, http = .clientError e →
          ((MCPClient.send_message st msg http).2.1).id =
            ((MCPClient.send_message st msg http).1).id)
      ∧ (∀ e, http = .exc e →
          ((MCPClient.send_message st msg http).2.1).id =
            ((MCPClient.send_message st msg http).1).id) := by
  intro st msg http
  refine ⟨?_, ?_, ?_, ?_⟩
  · cases http <;>
      cases hid : msg.id.isNull <;>
      simp [MCPClient.send_message, MCPClient._get_next_id, hid] <;>
      split <;> simp
  · rintro status text json rfl hs
    cases hid : msg.id.isNull <;>
      simp [MCPClient.send_message, MCPClient._get_next_id, hid, hs]
  · rintro e rfl
    cases hid : msg.id.isNull <;>
      simp [MCPClient.send_message, MCPClient._get_next_id, hid]
  · rintro e rfl
    cases hid : msg.id.isNull <;>
      simp [MCPClient.send_message, MCPClient._get_next_id, hid]

/-- Witness for C10 at a concrete non-200 outcome. -/
theorem failure_response_id_correlated_witness :
    ((MCPClient.send_message 0 { method := .str "ping" }
        (.response 500 "oops" [])).2.1).id =
      ((MCPClient.send_message 0 { method := .str "ping" }
        (.response 500 "oops" [])).1).id :=
  (failure_response_id_correlated 0 { method := .str "ping" }
      (.response 500 "oops" [])).2.1 500 "oops" [] rfl (by decide)

/-- C4 counterexample: `{"method": "ping", "params": None}` contains the
`params` key, yet `from_dict` followed by `to_dict` drops it, because
`data.get("params")` cannot distinguish a stored `None` from an absent key.
So the round trip does not preserve every present `params` key. -/
theorem from_to_dict_not_preserving_null_params :
    (dictGet [("method", JVal.str "ping"), ("params", JVal.null)] "params").isSome = true
    ∧ dictGet ((MCPMessage.from_dict
        [("method", JVal.str "ping"), ("params", JVal.null)]).to_dict) "params" = none := by
  constructor
  · rfl
  · rfl

/-- Helper: `to_dict` always exposes the `method` field. -/
theorem dictGet_to_dict_method (m : MCPMessage) :
    dictGet m.to_dict "method" = some m.method := by
  cases h1 : m.params.isNull <;> cases h2 : m.id.isNull <;>
    simp [MCPMessage.to_dict, dictGet, List.find?, h1, h2]

/-- Helper: `to_dict` exposes `params` exactly when it is not `None`. -/
theorem dictGet_to_dict_params (m : MCPMessage) :
    dictGet m.to_dict "params" =
      (if m.params.isNull then none else some m.params) := by
  cases h1 : m.params.isNull <;> cases h2 : m.id.isNull <;>
    simp [MCPMessage.to_dict, dictGet, List.find?, h1, h2]

/-- Helper: `to_dict` exposes `id` exactly when it is not `None`. -/
theorem dictGet_to_dict_id (m : MCPMessage) :
    dictGet m.to_dict "id" =
      (if m.id.isNull then none else some m.id) := by
  cases h1 : m.params.isNull <;> cases h2 : m.id.isNull <;>
    simp [MCPMessage.to_dict, dictGet, List.find?, h1, h2]

/-- C4 amended: the round trip preserves `method` always, and `params` / `id`
whenever they are present with a non-`None` value; a `params` / `id` key that
is absent — or present but bound to `None`, which `data.get` cannot
distinguish from absence — does not appear in the round-tripped
dictionary. -/
theorem from_to_dict_roundtrip :
    ∀ d : List (String × JVal),
      (∀ m, dictGet d "method" = some m →
        dictGet ((MCPMessage.from_dict d).to_dict) "method" = some m)
      ∧ (∀ p, dictGet d "params" = some p → p.isNull = false →
        dictGet ((MCPMessage.from_dict d).to_dict) "params" = some p)
      ∧ (dictGet d "params" = none →
        dictGet ((MCPMessage.from_dict d).to_dict) "params" = none)
      ∧ (dictGet d "params" = some .null →
        dictGet ((MCPMessage.from_dict d).to_dict) "params" = none)
      ∧ (∀ i, dictGet d "id" = some i → i.isNull = false →
        dictGet ((MCPMessage.from_dict d).to_dict) "id" = some i)
      ∧ (dictGet d "id" = none →
        dictGet ((MCPMessage.from_dict d).to_dict) "id" = none)
      ∧ (dictGet d "id" = some .null →
        dictGet ((MCPMessage.from_dict d).to_dict) "id" = none) := by
  intro d
  have hm := dictGet_to_dict_method (MCPMessage.from_dict d)
  have hp := dictGet_to_dict_params (MCPMessage.from_dict d)
  have hi := dictGet_to_dict_id (MCPMessage.from_dict d)
  refine ⟨?_, ?_, ?_, ?_, ?_, ?_, ?_⟩
  · intro m h
    rw [hm]
    simp [MCPMessage.from_dict, h]
  · intro p h hnull
    rw [hp]
    simp [MCPMessage.from_dict, h, hnull]
  · intro h
    rw [hp]
    simp [MCPMessage.from_dict, h, JVal.isNull]
  · intro h
    rw [hp]
    simp [MCPMessage.from_dict, h, JVal.isNull]
  · intro i h hnull
    rw [hi]
    simp [MCPMessage.from_dict, h, hnull]
  · intro h
    rw [hi]
    simp [MCPMessage.from_dict, h, JVal.isNull]
  · intro h
    rw [hi]
    simp [MCPMessage.from_dict, h, JVal.isNull]

/-- Witness for C4 at a concrete dictionary with all three keys present and
non-null. -/
theorem from_to_dict_roundtrip_witness :
    dictGet ((MCPMessage.from_dict
        [("method", JVal.str "ping"), ("params", JVal.dict [("a", JVal.int 1)]),
         ("id", JVal.int 7)]).to_dict) "method" = some (JVal.str "ping")
    ∧ dictGet ((MCPMessage.from_dict
        [("method", JVal.str "ping"), ("params", JVal.dict [("a", JVal.int 1)]),
         ("id", JVal.int 7)]).to_dict) "params" = some (JVal.dict [("a", JVal.int 1)])
    ∧ dictGet ((MCPMessage.from_dict
        [("method", JVal.str "ping"), ("params", JVal.dict [("a", JVal.int 1)]),
         ("id", JVal.int 7)]).to_dict) "id" = some (JVal.int 7) :=
  ⟨(from_to_dict_roundtrip _).1 _ rfl,
   (from_to_dict_roundtrip _).2.1 _ rfl rfl,
   (from_to_dict_roundtrip _).2.2.2.2.1 _ rfl rfl⟩

/-- C2: `translate` is total (a total function of its inputs here) and tries
the strategies in fixed order — the regex pattern table first, then the LLM
strategy only when no pattern matched and a provider was supplied, and
otherwise falls back to the `custom` method with
`params = {"query": <the original input verbatim>}`. -/
theorem translate_strategy_order :
    ∀ (search : NLToMCPTranslator.ReSearch)
      (extractArgs : NLToMCPTranslator.ExtractArgs)
      (llm : Option (String → Option MCPMessage)) (query : String),
      (∀ m, NLToMCPTranslator.parse_simple_query search extractArgs query = some m →
          NLToMCPTranslator.translate search extractArgs llm query = m)
      ∧ (∀ f m, NLToMCPTranslator.parse_simple_query search extractArgs query = none →
          llm = some f → f query = some m →
          NLToMCPTranslator.translate search extractArgs llm query = m)
      ∧ ((NLToMCPTranslator.parse_simple_query search extractArgs query = none ∧
          (llm = none ∨ ∃ f, llm = some f ∧ f query = none)) →
          NLToMCPTranslator.translate search extractArgs llm query =
            { method := .str MCPMethod.CUSTOM
              params := .dict [("query", .str query)] }) := by
  intro search extractArgs llm query
  refine ⟨?_, ?_, ?_⟩
  · intro m h
    simp [NLToMCPTranslator.translate, h]
  · intro f m hnone hllm hf
    simp [NLToMCPTranslator.translate, hnone, hllm, hf]
  · rintro ⟨hnone, hfb⟩
    rcases hfb with h | ⟨f, hllm, hf⟩ <;>
      simp [NLToMCPTranslator.translate, hnone, *]

/-- Witness for C2: with no matching pattern and no LLM provider, `translate`
returns the `custom` fallback carrying the query verbatim. -/
theorem translate_strategy_order_witness :
    NLToMCPTranslator.translate (fun _ _ => none) (fun _ => none) none
        "make me a sandwich" =
      { method := .str MCPMethod.CUSTOM
        params := .dict [("query", .str "make me a sandwich")] } :=
  (translate_strategy_order (fun _ _ => none) (fun _ => none) none
      "make me a sandwich").2.2 ⟨rfl, Or.inl rfl⟩

/-- C9: the reserved-keyword screen of `execute_command` uses string-prefix
matching: among commands that reach it (none of the earlier built-in guards
fired), a command beginning with one of the keywords goes to the OS
subprocess and every other command is routed to the implicit `llm` built-in;
concretely, `clearly` and `envelope` bypass the LLM while `ls` is wrapped as
an `llm` query. -/
theorem nl_screen_prefix_matching :
    (∀ e : String,
      ¬ pyStartsWith e "cd " = true →
      e ≠ "pwd" →
      ¬ pyStartsWith e "export " = true →
      e ≠ "alias" →
      ¬ (e = "llm" ∨ pyStartsWith e "llm " = true) →
      ¬ (e = "mcp" ∨ pyStartsWith e "mcp " = true) →
      ¬ (e = "collate" ∨ pyStartsWith e "collate " = true) →
      ¬ (e = "generate" ∨ pyStartsWith e "generate " = true) →
      ¬ (e = "env" ∨ pyStartsWith e "env " = true) →
      dispatchCore e =
        (if NL_KEYWORDS.any (fun k => pyStartsWith e k) then Route.subprocess e
         else Route.llm ("llm \"" ++ e ++ "\"")))
    ∧ dispatch defaultAliases "clearly" = Route.subprocess "clearly"
    ∧ dispatch defaultAliases "envelope" = Route.subprocess "envelope"
    ∧ dispatch defaultAliases "ls" = Route.llm "llm \"ls\"" := by
  refine ⟨?_, by decide, by decide, by decide⟩
  intro e h1 h2 h3 h4 h5 h6 h7 h8 h9
  simp only [not_or] at h5 h6 h7 h8 h9
  simp only [Bool.not_eq_true] at h1 h3 h5 h6 h7 h8 h9
  simp only [dispatchCore, h1, h2, h3, h4, h5.1, h5.2, h6.1, h6.2, h7.1, h7.2,
    h8.1, h8.2, h9.1, h9.2, if_false, Bool.false_or, Bool.and_false,
    decide_eq_true_eq, if_neg, decide_eq_false_iff_not, ne_eq,
    not_false_eq_true, Bool.or_false, Bool.false_and, ite_false]
  cases hany : NL_KEYWORDS.any (fun k => pyStartsWith e k) <;> simp [hany]

/-- Witness for C9: the screen hypotheses hold for the concrete command
`history of rome`, which begins with the keyword `history` and is sent to
the subprocess. -/
theorem nl_screen_prefix_matching_witness :
    dispatchCore "history of rome" = Route.subprocess "history of rome" := by
  have h := nl_screen_prefix_matching.1 "history of rome"
    (by decide) (by decide) (by decide) (by decide) (by decide)
    (by decide) (by decide) (by decide) (by decide)
  simpa using h

/-- C7 counterexample: a bare `cd` (no argument, no trailing space) never
reaches the `_handle_cd` builtin — `execute_command` only routes commands
starting with `"cd "` there, and bare `cd` begins with the keyword `cd`, so
it is executed as an external subprocess and the tracked current directory
stays unchanged rather than moving to the home directory (which here exists
and is a directory). -/
theorem cd_no_arg_goes_to_subprocess :
    (executeCommandDir defaultAliases
        { home := ⟨true, ["home", "user"]⟩, resolve := id,
          existsP := fun _ => true, isDirP := fun _ => true }
        ⟨true, ["tmp"]⟩ ⟨true, ["tmp"]⟩ "cd")
      = (Route.subprocess "cd", ⟨true, ["tmp"]⟩, ⟨true, ["tmp"]⟩)
    ∧ (⟨true, ["tmp"]⟩ : PyPath) ≠ ⟨true, ["home", "user"]⟩ := by
  exact ⟨rfl, by decide⟩

/-- C7 amended: commands starting with `"cd "` are dispatched to the cd
builtin, where an empty argument list means the home directory, a relative
argument resolves against the tracked current directory, and a nonexistent
or non-directory target yields exit code 1 with both the tracked directory
and the OS working directory unchanged; bare `cd` (no space) is instead
dispatched to the external subprocess. -/
theorem handle_cd_behavior :
    (∀ (a : List (String × String)) (c : String),
        pyStartsWith (expand_alias a c) "cd " = true →
        dispatch a c = Route.cd (expand_alias a c))
    ∧ dispatch defaultAliases "cd" = Route.subprocess "cd"
    ∧ (∀ (fs : Fs) (cur osCwd : PyPath) (cmd : String),
        shlexSplit cmd = ["cd"] →
        fs.home.isAbs = true →
        fs.existsP (fs.resolve fs.home) = true →
        fs.isDirP (fs.resolve fs.home) = true →
        _handle_cd fs cur osCwd cmd =
          ((0, (fs.resolve fs.home).toStr, ""), fs.resolve fs.home, fs.resolve fs.home))
    ∧ (∀ (fs : Fs) (cur osCwd : PyPath) (cmd arg : String),
        shlexSplit cmd = ["cd", arg] →
        (parsePath arg).isAbs = false →
        (parsePath arg).segs.head? ≠ some "~" →
        fs.existsP (fs.resolve (cur.join (parsePath arg))) = true →
        fs.isDirP (fs.resolve (cur.join (parsePath arg))) = true →
        _handle_cd fs cur osCwd cmd =
          ((0, (fs.resolve (cur.join (parsePath arg))).toStr, ""),
           fs.resolve (cur.join (parsePath arg)),
           fs.resolve (cur.join (parsePath arg))))
    ∧ (∀ (fs : Fs) (cur osCwd : PyPath) (cmd : String),
        (_handle_cd fs cur osCwd cmd).1.1 ≠ 0 →
        (_handle_cd fs cur osCwd cmd).2.1 = cur ∧
        (_handle_cd fs cur osCwd cmd).2.2 = osCwd) := by
  refine ⟨?_, by decide, ?_, ?_, ?_⟩
  · intro a c h
    simp [dispatch, dispatchCore, h]
  · intro fs cur osCwd cmd hparts habs hex hdir
    simp [_handle_cd, cdTarget, hparts, habs, hex, hdir]
  · intro fs cur osCwd cmd arg hparts habs hnotilde hex hdir
    have hexp : PyPath.expanduser fs.home (parsePath arg) = parsePath arg := by
      unfold PyPath.expanduser
      split
      · next rest heq =>
          exact absurd (by rw [heq]; rfl) hnotilde
      · rfl
    simp [_handle_cd, cdTarget, hparts, hexp, habs, hex, hdir]
  · intro fs cur osCwd cmd h
    simp only [_handle_cd] at h ⊢
    cases hc : (fs.existsP (cdTarget fs cur cmd) && fs.isDirP (cdTarget fs cur cmd)) <;>
      simp [hc] at h ⊢

/-- Witness for C7 at a concrete filesystem: `cd www` from `/srv` moves to
`/srv/www`. -/
theorem handle_cd_behavior_witness :
    _handle_cd
        { home := ⟨true, ["home", "user"]⟩, resolve := id,
          existsP := fun _ => true, isDirP := fun _ => true }
        ⟨true, ["srv"]⟩ ⟨true, ["srv"]⟩ "cd www" =
      ((0, "/srv/www", ""), ⟨true, ["srv", "www"]⟩, ⟨true, ["srv", "www"]⟩) := by
  have h := handle_cd_behavior.2.2.2.1
    { home := ⟨true, ["home", "user"]⟩, resolve := id,
      existsP := fun _ => true, isDirP := fun _ => true }
    ⟨true, ["srv"]⟩ ⟨true, ["srv"]⟩ "cd www" "www"
    (by decide) (by decide) (by decide) rfl rfl
  simpa using h

/-- Helper: folding `add` over a list of accepted commands appends them all
to the history, and (when at least one was added) leaves the file holding
the last 1000 entries of the final history. -/
theorem foldl_add_accepted (cmds : List String) (st : CommandHistory.State)
    (h : ∀ c ∈ cmds, ¬(c = "" ∨ c ∈ ["exit", "quit"])) :
    (cmds.foldl CommandHistory.add st).history = st.history ++ cmds ∧
    (cmds ≠ [] → (cmds.foldl CommandHistory.add st).file =
      (st.history ++ cmds).drop ((st.history ++ cmds).length - 1000)) := by
  induction cmds generalizing st with
  | nil => simp
  | cons c cs ih =>
      have hc := h c (by simp)
      push_neg at hc
      have hstep : CommandHistory.add st c =
          ⟨st.history ++ [c], (st.history ++ [c]).drop ((st.history ++ [c]).length - 1000)⟩ := by
        simp [CommandHistory.add, CommandHistory.save_history, hc.1, hc.2]
      have ih' := ih ⟨st.history ++ [c],
          (st.history ++ [c]).drop ((st.history ++ [c]).length - 1000)⟩
        (fun x hx => h x (by simp [hx]))
      rcases cs with _ | ⟨c', cs'⟩
      · simp [hstep]
      · refine ⟨?_, fun _ => ?_⟩
        · simpa [hstep] using ih'.1
        · have := ih'.2 (by simp)
          simpa [hstep] using this

/-- C8: the persisted history holds at most the most recent 1000 entries
(the file is rewritten to `history[-1000:]` on every accepted add), empty
and literal `exit` / `quit` commands are rejected without touching the
state, and after adding 1005 distinct accepted commands followed by
`add("exit")` the persisted file has exactly 1000 entries, none of them
`"exit"`. -/
theorem command_history_cap :
    (∀ st c, (c = "" ∨ c ∈ ["exit", "quit"]) → CommandHistory.add st c = st)
    ∧ (∀ st c, ¬(c = "" ∨ c ∈ ["exit", "quit"]) →
        (CommandHistory.add st c).history = st.history ++ [c] ∧
        (CommandHistory.add st c).file =
          (st.history ++ [c]).drop ((st.history ++ [c]).length - 1000))
    ∧ (∀ st c, st.file.length ≤ 1000 → (CommandHistory.add st c).file.length ≤ 1000)
    ∧ (∀ cmds : List String, cmds.length = 1005 → cmds.Nodup →
        (∀ c ∈ cmds, ¬(c = "" ∨ c ∈ ["exit", "quit"])) →
        (CommandHistory.add (cmds.foldl CommandHistory.add ⟨[], []⟩) "exit").file.length = 1000 ∧
        "exit" ∉ (CommandHistory.add (cmds.foldl CommandHistory.add ⟨[], []⟩) "exit").file) := by
  refine ⟨?_, ?_, ?_, ?_⟩
  · intro st c hc
    have hng : ¬(c ≠ "" ∧ c ∉ ["exit", "quit"]) := by
      rcases hc with h | h <;> simp [h]
    simp only [CommandHistory.add, if_neg hng]
  · intro st c hc
    push_neg at hc
    simp [CommandHistory.add, CommandHistory.save_history, hc.1, hc.2]
  · intro st c hlen
    by_cases hc : c ≠ "" ∧ c ∉ ["exit", "quit"]
    · simp [CommandHistory.add, CommandHistory.save_history, hc]
      omega
    · simp only [CommandHistory.add, if_neg hc]
      exact hlen
  · intro cmds hlen _ hacc
    have hfold := foldl_add_accepted cmds ⟨[], []⟩ hacc
    have hne : cmds ≠ [] := by
      intro h
      rw [h] at hlen
      simp at hlen
    have hexitmem : "exit" ∉ cmds := by
      intro hmem
      exact hacc "exit" hmem (Or.inr (by simp))
    have hreject : CommandHistory.add (cmds.foldl CommandHistory.add ⟨[], []⟩) "exit" =
        cmds.foldl CommandHistory.add ⟨[], []⟩ := by
      simp [CommandHistory.add]
    rw [hreject]
    have hfile := hfold.2 hne
    simp only [List.nil_append] at hfile
    constructor
    · rw [hfile, List.length_drop, hlen]
    · rw [hfile]
      intro hmem
      exact hexitmem (List.drop_subset _ _ hmem)

/-- Witness for C8: 1005 pairwise distinct non-empty commands
(`"a"`, `"aa"`, …) followed by `add("exit")` leave exactly 1000 persisted
entries with no `"exit"` among them. -/
theorem command_history_cap_witness :
    (CommandHistory.add
      (((List.range 1005).map (fun n => String.mk (List.replicate (n + 1) 'a'))).foldl
        CommandHistory.add ⟨[], []⟩) "exit").file.length = 1000 ∧
    "exit" ∉ (CommandHistory.add
      (((List.range 1005).map (fun n => String.mk (List.replicate (n + 1) 'a'))).foldl
        CommandHistory.add ⟨[], []⟩) "exit").file := by
  apply command_history_cap.2.2.2
  · simp
  · refine List.Nodup.map ?_ (List.nodup_range 1005)
    intro a b hab
    have : (List.replicate (a + 1) 'a').length = (List.replicate (b + 1) 'a').length := by
      rw [show List.replicate (a + 1) 'a' = List.replicate (b + 1) 'a' from
        congrArg String.data hab]
    simpa using this
  · intro c hc
    simp only [List.mem_map, List.mem_range] at hc
    obtain ⟨n, _, rfl⟩ := hc
    simp only [not_or]
    refine ⟨?_, ?_⟩
    · intro h
      have := congrArg String.data h
      simp at this
    · intro h
      simp only [List.mem_cons, List.mem_singleton] at h
      rcases h with h | h | h
      · have := congrArg String.data h
        rw [List.replicate_succ] at this
        simp at this
      · have := congrArg String.data h
        rw [List.replicate_succ] at this
        simp at this
      · cases h

/-- C5: evaluating the CLI `query` subcommand's error branch at a concrete
failed call.  It passes `response=f"ERROR: {response.error}"` with no
`error=` argument, so `log_interaction` takes its success path: the raw
error text is appended to the transcript file as the response line, nothing
goes to the error file, and no "Failed (see log with timestamp T)" pointer
is written — contradicting the terse-pointer invariant the claim states. -/
theorem cli_query_error_leaks_into_transcript :
    LLMTranscriptManager.cliQueryErrorLog "2025-01-01 00:00:00" "hello"
        "API key not configured" "claude" none =
      (["**2025-01-01 00:00:00 | CLAUDE (unknown)**",
        "",
        "**Query:** hello",
        "",
        "**Response:**",
        "ERROR: API key not configured",
        "",
        "---",
        ""], none)
    ∧ "ERROR: API key not configured" ∈
        (LLMTranscriptManager.cliQueryErrorLog "2025-01-01 00:00:00" "hello"
          "API key not configured" "claude" none).1
    ∧ "**Response:** Failed (see log with timestamp 2025-01-01 00:00:00)" ∉
        (LLMTranscriptManager.cliQueryErrorLog "2025-01-01 00:00:00" "hello"
          "API key not configured" "claude" none).1 := by
  refine ⟨by decide, by decide, by decide⟩

/-- C6: evaluating `reload_env` at a failing input.  A fresh manager loads
`.env` containing `A=1`; the file is then rewritten to contain only `B=2`
and reloaded.  Because `load_env` only ever inserts into `_loaded_vars`
(it never clears it), the deleted key `A` survives in the loaded record, the
`removed` difference is empty, and the verbose report shows `B` as added and
nothing as removed — the deleted key `A` is never reported as removed. -/
theorem reload_env_never_reports_removed :
    EnvManager.load_env (some ["A=1"]) [] = (true, [("A", "1")])
    ∧ EnvManager.reload_env (some ["B=2"]) [("A", "1")] =
        (true, [("A", "1"), ("B", "2")],
         some { added := ["B"], removed := [], modified := [] }) := by
  refine ⟨by decide, by decide⟩

end Aishell
